import Mathlib

/-!
# Verification of the chatbot-nd-backend document/retrieval core

Shallow embedding, in Lean 4, of the document-to-knowledge pipeline and
retrieval orchestration core of the `chatbot-nd-backend` repository:

* `document/models.py` — `ProcessingStatus.progress_percentage`;
* `document/utils/text_cleaner.py` — `TextCleaner.clean_text`,
  `calculate_avg_text_length`, `determine_chunk_parameters`,
  `split_documents`, `process_text`;
* `document/utils/pdf_extractor.py` — `PDFExtractor.extract_from_file`,
  `extract_from_bytes`;
* `document/services/document_processing_service.py` —
  `DocumentProcessingService._process_text_chunks`;
* `vectorstore/services/vector_store_manager.py` —
  `VectorStoreManager.add_document_to_vector_store`, `get_retriever`;
* `llm/tasks.py` — `process_retrieval_query`, `generate_direct_response`;
* `chat/services.py` — `ChatService.process_message`.

Conventions used throughout:

* Python strings are modelled as Lean `String` / `List Char`.
* Machine floats that only carry exactly representable values at the points
  that matter are modelled as `ℚ` or via exact integer division; where Python
  truncates a float to `int`, this is modelled as truncation-toward-zero
  (`Int.tdiv`) of the exact rational value.
* Fallible Python code is modelled with `Except`; Python exception classes
  are modelled by the `Exc` inductive, and `str(e)` by `Exc.text`.
* Calls into external collaborators (PDF parser, embedding model, vector
  database backend, language model) are modelled as explicit outcome
  parameters (`Except`-valued oracles), so each theorem quantifies over all
  possible collaborator behaviours.
* Django ORM writes inside a `@transaction.atomic` block are modelled with
  an explicit working copy of the database record: the copy is committed
  (becomes visible to other readers) only when the function returns
  normally; if an exception escapes the block, every write made inside it —
  including writes made by an `except` handler that then re-raises — is
  rolled back and the committed state is unchanged.  This is Django's
  documented semantics for `transaction.atomic`.
-/

namespace ChatbotND

/-- Python exception classes appearing in the modelled code, each carrying
its message; `text` is `str(e)`. -/
inductive Exc where
  | invalidFileFormatError (msg : String)
  | documentExtractionError (msg : String)
  | vectorStoreError (msg : String)
  | providerNotFoundError (msg : String)
  | integrityError (msg : String)
  | doesNotExist (msg : String)
  deriving Repr, DecidableEq

/-- `str(e)`: the message carried by the exception. -/
def Exc.text : Exc → String
  | .invalidFileFormatError m => m
  | .documentExtractionError m => m
  | .vectorStoreError m => m
  | .providerNotFoundError m => m
  | .integrityError m => m
  | .doesNotExist m => m

/-- `e.isOk` for an `Except`, as a `Bool`. -/
def exceptIsOk {ε α : Type} : Except ε α → Bool
  | .ok _ => true
  | .error _ => false

/-! ## `ProcessingStatus.progress_percentage` (document/models.py, lines 75-79)

```python
@property
def progress_percentage(self):
    if self.total_pages == 0:
        return 0
    return min(100, int((self.processed_pages / self.total_pages) * 100))
```

`processed_pages` and `total_pages` are Django `IntegerField`s, i.e.
arbitrary (possibly negative) integers.  Python's
`int((processed / total) * 100)` truncates the quotient toward zero; the
exact rational value `processed * 100 / total` truncated toward zero is
`Int.tdiv (processed * 100) total`.  (At every concrete input appearing in
the theorems below the float computation is exact, so the rational model
agrees with CPython.) -/

def progress_percentage (processed_pages total_pages : Int) : Int :=
  if total_pages = 0 then 0
  else min 100 (Int.tdiv (processed_pages * 100) total_pages)

/-! ## `TextCleaner.determine_chunk_parameters` and
`TextCleaner.calculate_avg_text_length` (document/utils/text_cleaner.py) -/

/-- A page produced by `PDFExtractor`: `page_content` plus the metadata keys
`doc_uuid`, `source` and `page` that the extractor always sets. -/
structure ExtractedPage where
  page_content : String
  doc_uuid : String
  source : String
  page : Nat
  deriving Repr, DecidableEq

/-- `TextCleaner.calculate_avg_text_length`: 0 for an empty list, otherwise
the mean of the `page_content` lengths (Python float division, exact here
as a rational). -/
def calculate_avg_text_length (documents : List ExtractedPage) : ℚ :=
  if documents = [] then 0
  else ((documents.map (fun d => (d.page_content.length : ℚ))).sum) / documents.length

/-- `TextCleaner.determine_chunk_parameters`: `(500, 50)` when the average
text length is strictly greater than 1000, `(1500, 200)` otherwise. -/
def determine_chunk_parameters (avg_text_length : ℚ) : Nat × Nat :=
  if avg_text_length > 1000 then (500, 50)
  else (1500, 200)

/-! ## `TextCleaner.clean_text` (document/utils/text_cleaner.py, lines 11-36)

```python
text = re.sub(r'[\n\r]+', ' ', text)
text = re.sub(r'\s+', ' ', text)
text = re.sub(r'page \d+ of \d+', '', text, flags=re.IGNORECASE)
text = text.replace('l/', 'i/')
text = text.replace('|', 'I')
return text.strip()
```

The regular expressions are embedded directly: `re.sub` scans left to
right, replaces each leftmost non-overlapping match and resumes after it;
`[\n\r]+` and `\s+` therefore collapse each maximal run of matching
characters into one space, and the footer pattern removes each occurrence
of `page <digits> of <digits>` (case-insensitive; both `\d+` are greedy and
each is followed by a non-digit, so maximal munch is exact).  `\s` and
`str.strip()` are modelled on the ASCII whitespace characters. -/

/-- A character matched by the regex class `[\n\r]`. -/
def isNewlineChar (c : Char) : Bool := c = '\n' ∨ c = '\r'

/-- A character matched by the regex class `\s` (ASCII range). -/
def isSpaceChar (c : Char) : Bool :=
  c = ' ' ∨ c = '\t' ∨ c = '\n' ∨ c = '\r' ∨ c = '\x0b' ∨ c = '\x0c'

/-- Scanner for `re.sub(r'C+', ' ', text)`: `inRun` records whether the
previous character belonged to a run of class-`C` characters; the first
character of each maximal run becomes one space, the rest are dropped. -/
def collapseRunsAux (p : Char → Bool) (inRun : Bool) : List Char → List Char
  | [] => []
  | c :: rest =>
    if p c then
      if inRun then collapseRunsAux p true rest
      else ' ' :: collapseRunsAux p true rest
    else c :: collapseRunsAux p false rest

/-- `re.sub(r'C+', ' ', text)` for a character class `C`: each maximal run
of characters satisfying `p` becomes a single space. -/
def collapseRuns (p : Char → Bool) (l : List Char) : List Char :=
  collapseRunsAux p false l

/-- Number of characters consumed by a match of `page \d+ of \d+`
(case-insensitive) at the head of the list, if any. -/
def matchFooterAt (l : List Char) : Option Nat :=
  match l with
  | p :: a :: g :: e :: ' ' :: rest =>
    if p.toLower = 'p' ∧ a.toLower = 'a' ∧ g.toLower = 'g' ∧ e.toLower = 'e' then
      let ds := rest.takeWhile Char.isDigit
      if ds = [] then none
      else
        match rest.drop ds.length with
        | ' ' :: o :: f :: ' ' :: rest2 =>
          if o.toLower = 'o' ∧ f.toLower = 'f' then
            let ds2 := rest2.takeWhile Char.isDigit
            if ds2 = [] then none
            else some (5 + ds.length + 4 + ds2.length)
          else none
        | _ => none
    else none
  | _ => none

/-- Scanner for the footer `re.sub`: `skip` is the number of still-to-drop
characters of the current match (scanning resumes only after them, exactly
as `re.sub` resumes after each replaced match). -/
def stripFootersAux : Nat → List Char → List Char
  | _, [] => []
  | skip + 1, _ :: rest => stripFootersAux skip rest
  | 0, c :: rest =>
    match matchFooterAt (c :: rest) with
    | some n => stripFootersAux (n - 1) rest
    | none => c :: stripFootersAux 0 rest

/-- `re.sub(r'page \d+ of \d+', '', text, flags=re.IGNORECASE)`: scan left
to right, delete each leftmost match, resume after it. -/
def stripFooters (l : List Char) : List Char :=
  stripFootersAux 0 l

/-- `text.replace('l/', 'i/')`: leftmost non-overlapping occurrences. -/
def replaceLSlash : List Char → List Char
  | [] => []
  | [c] => [c]
  | a :: b :: rest =>
    if a = 'l' ∧ b = '/' then 'i' :: '/' :: replaceLSlash rest
    else a :: replaceLSlash (b :: rest)

/-- `text.replace('|', 'I')`: a single-character replacement is a `map`. -/
def replacePipe (l : List Char) : List Char :=
  l.map (fun c => if c = '|' then 'I' else c)

/-- `text.strip()` on ASCII whitespace. -/
def stripEnds (l : List Char) : List Char :=
  (((l.dropWhile isSpaceChar).reverse.dropWhile isSpaceChar)).reverse

/-- `TextCleaner.clean_text`, as the composition performed by the source,
on `List Char`. -/
def clean_textL (l : List Char) : List Char :=
  stripEnds (replacePipe (replaceLSlash (stripFooters
    (collapseRuns isSpaceChar (collapseRuns isNewlineChar l)))))

/-- `TextCleaner.clean_text` on `String`. -/
def clean_text (s : String) : String :=
  String.mk (clean_textL s.data)

/-- Decides whether the two-character pattern `l/` occurs in the list. -/
def hasLSlash : List Char → Bool
  | [] => false
  | [_] => false
  | a :: b :: rest => (a = 'l' && b = '/') || hasLSlash (b :: rest)

/-! ## `TextCleaner.split_documents` / `process_text`
(document/utils/text_cleaner.py, lines 71-138) and
`DocumentProcessingService._process_text_chunks`
(document/services/document_processing_service.py, lines 93-125)

`split_documents` delegates the actual splitting of one cleaned page text
to `RecursiveCharacterTextSplitter.split_text` from the external
`langchain_text_splitters` package (not part of this repository).  What the
repository itself does — and what the chunk-index claims are about — is the
loop

```python
for doc in documents:
    clean_text = TextCleaner.clean_text(doc["page_content"])
    split_texts = text_splitter.split_text(clean_text)
    for i, split_text in enumerate(split_texts):
        splits.append({"page_content": split_text,
                       "metadata": {**doc["metadata"], "chunk_index": i}})
```

whose inner `enumerate` restarts `i` at 0 for every page. -/

/-- Modelled from the spec: the external recursive character splitter
(`langchain_text_splitters.RecursiveCharacterTextSplitter.split_text`,
missing from src/).  Per the spec it performs "recursive separator-based
splitting … then hard character cut — producing overlapping windows of at
most `chunk` characters with `overlap` characters shared between
consecutive windows", deterministically.  The model takes the hard-cut
window view: a text of at most `chunk_size` characters is returned as the
single window, a longer text as successive windows of `chunk_size`
characters whose start positions advance by `chunk_size - chunk_overlap`;
an empty text yields no chunks.  Window starts advance by `step`
(`= chunk_size - chunk_overlap`); `k` is the number of full windows before
the final remainder window (the least `k` with `len - k·step ≤ chunk_size`). -/
def splitTextWindows (chunk_size step : Nat) (l : List Char) : List (List Char) :=
  if l = [] then []
  else if l.length ≤ chunk_size ∨ step = 0 then [l]
  else
    let k := (l.length - chunk_size + step - 1) / step
    (List.range k).map (fun i => (l.drop (i * step)).take chunk_size) ++ [l.drop (k * step)]

/-- `split_text` on `String`, as used by `split_documents`. -/
def split_text (chunk_size chunk_overlap : Nat) (s : String) : List String :=
  (splitTextWindows chunk_size (chunk_size - chunk_overlap) s.data).map String.mk

/-- One entry of the `splits` list built by `TextCleaner.split_documents`:
the split text plus the page metadata and the per-page `chunk_index`. -/
structure SplitChunk where
  page_content : String
  doc_uuid : String
  source : String
  page : Nat
  chunk_index : Nat
  deriving Repr, DecidableEq

/-- `TextCleaner.split_documents`: clean each page, split it, and emit the
splits of every page with `chunk_index` given by `enumerate` — restarting
from 0 on each page, exactly as the source's inner loop does. -/
def split_documents (documents : List ExtractedPage) (chunk_size chunk_overlap : Nat) :
    List SplitChunk :=
  documents.flatMap (fun doc =>
    (split_text chunk_size chunk_overlap (clean_text doc.page_content)).enum.map
      (fun p => { page_content := p.2, doc_uuid := doc.doc_uuid, source := doc.source,
                  page := doc.page, chunk_index := p.1 }))

/-- `TextCleaner.process_text`: adaptive parameters, then split. -/
def process_text (documents : List ExtractedPage) : List SplitChunk :=
  let avg_length := calculate_avg_text_length documents
  let params := determine_chunk_parameters avg_length
  split_documents documents params.1 params.2

/-- A `DocumentChunk` row as persisted by
`DocumentProcessingService._process_text_chunks`: `content` from the split
text, `chunk_index` from the split metadata (default 0), `page_number` from
the metadata key `page`. -/
structure DocumentChunkRow where
  content : String
  chunk_index : Nat
  page_number : Option Nat
  deriving Repr, DecidableEq

/-- `DocumentProcessingService._process_text_chunks`: run `process_text`
and bulk-persist one `DocumentChunk` row per split, in list order. -/
def process_text_chunks (extracted_pages : List ExtractedPage) : List DocumentChunkRow :=
  (process_text extracted_pages).map
    (fun chunk_data => { content := chunk_data.page_content,
                         chunk_index := chunk_data.chunk_index,
                         page_number := some chunk_data.page })

/-- The `chunk_index` column of the persisted rows of one document, in
persisted order. -/
def chunkIndexes (extracted_pages : List ExtractedPage) : List Nat :=
  (process_text_chunks extracted_pages).map (fun r => r.chunk_index)

/-! ## `PDFExtractor` (document/utils/pdf_extractor.py)

`extract_from_bytes` writes the bytes to a temporary file
(`NamedTemporaryFile(delete=False, suffix='.pdf')`), calls
`extract_from_file` on it, and calls `os.unlink` on the temp path *after*
the extraction call, inside the same `try:` block; the `except` wraps any
exception into `DocumentExtractionError` and re-raises without unlinking.
The underlying parse (`PyPDFLoader(path).load()`, external library) enters
the model as a `LoadOutcome` oracle; `os.unlink` may itself fail, which the
code catches and ignores — the oracle `unlink_ok` covers that. -/

/-- Python `file_name.lower().endswith('.pdf')` (ASCII lowering). -/
def endsWithPdf (file_name : String) : Bool :=
  decide (".pdf".data <:+ (file_name.data.map Char.toLower))

/-- `os.path.basename` for forward-slash paths. -/
def basename (file_path : String) : String :=
  String.mk ((file_path.data.reverse.takeWhile (fun c => c ≠ '/')).reverse)

/-- A page as returned by the external `PyPDFLoader.load()`:
`page_content` and the metadata key `page` (default 0). -/
structure RawPage where
  page_content : String
  page : Nat
  deriving Repr, DecidableEq

/-- Outcome of the external `PyPDFLoader(file_path).load()` call: a list of
pages, or an exception with message `msg`. -/
inductive LoadOutcome where
  | docs (pages : List RawPage)
  | raises (msg : String)
  deriving Repr, DecidableEq

/-- `PDFExtractor.extract_from_file`: reject non-`.pdf` names with
`InvalidFileFormatError`; raise `DocumentExtractionError` (wrapped by the
function's own `except`) when the parse raises or yields zero pages;
otherwise tag every page with a shared `doc_uuid` and the basename. -/
def extract_from_file (file_path : String) (outcome : LoadOutcome) (doc_uuid : String) :
    Except Exc (List ExtractedPage) :=
  if ¬ endsWithPdf file_path then
    .error (.invalidFileFormatError "Only PDF files are supported")
  else
    match outcome with
    | .raises msg =>
      .error (.documentExtractionError ("Failed to extract content: " ++ msg))
    | .docs [] =>
      .error (.documentExtractionError
        "Failed to extract content: No content extracted from PDF")
    | .docs pages =>
      .ok (pages.map fun d =>
        { page_content := d.page_content, doc_uuid := doc_uuid,
          source := basename file_path, page := d.page })

/-- Result of one `extract_from_bytes` call: the returned pages or raised
exception, whether the temporary file was created, and whether it was
removed again by the time the call exits. -/
structure BytesExtractResult where
  result : Except Exc (List ExtractedPage)
  tempCreated : Bool
  tempDeleted : Bool

/-- `PDFExtractor.extract_from_bytes`: check the extension, write the bytes
to `temp_base ++ ".pdf"`, extract from that file, then unlink it — the
unlink statement sits after the extraction call on the success path only,
and its own failure is caught and ignored (`unlink_ok`). -/
def extract_from_bytes (file_name temp_base : String) (outcome : LoadOutcome)
    (doc_uuid : String) (unlink_ok : Bool) : BytesExtractResult :=
  if ¬ endsWithPdf file_name then
    { result := .error (.invalidFileFormatError "Only PDF files are supported"),
      tempCreated := false, tempDeleted := false }
  else
    match extract_from_file (temp_base ++ ".pdf") outcome doc_uuid with
    | .ok pages =>
      { result := .ok pages, tempCreated := true, tempDeleted := unlink_ok }
    | .error e =>
      { result := .error (.documentExtractionError ("Failed to extract content: " ++ e.text)),
        tempCreated := true, tempDeleted := false }

/-! ## `VectorStoreManager.add_document_to_vector_store`
(vectorstore/services/vector_store_manager.py, lines 93-184)

The method is decorated with `@transaction.atomic`, so every ORM write it
makes — including `vector_store.save(update_fields=['status'])` — happens
inside one database transaction that commits only when the method returns
normally.  If an exception escapes the method, Django rolls the whole
transaction back; this includes the writes made by the method's own
`except` branch (re-fetch instance, `status = 'failed'`,
`error_message = str(e)`, save), because that branch ends by raising
`VectorStoreError`, which leaves the atomic block.  (On PostgreSQL the
branch's queries would additionally fail outright after a database error
such as `IntegrityError` — Django forbids further queries in a broken
transaction — which the bare `except: pass` swallows; the committed
outcome is the same on every backend: no write survives.)

The model therefore runs the body on a working copy of the instance's
database state and returns

* `raised`  — the exception propagated to the caller, if any;
* `db`      — the committed state after the call (the input state when the
  call raised, the working copy when it returned normally);
* `commits` — every state that becomes visible to other readers during or
  at the end of the call: with `@transaction.atomic` that is at most the
  single final commit.

External collaborators enter as oracles: `provider_outcome` for
`get_provider` (which raises `ProviderNotFoundError` or
`VectorStoreError`), `embed_outcome` for
`embedding_service.generate_embeddings` (vectors modelled opaquely as
`Nat`), `backend_outcome` for `provider_impl.add_documents`, which on
success returns exactly the ids it was given (`chroma_service.py` returns
`ids`). -/

/-- A `DocumentChunk` row as read back by the manager (`id` is the primary
key). -/
structure ChunkRow where
  id : Nat
  content : String
  chunk_index : Nat
  page_number : Option Nat
  deriving Repr, DecidableEq

/-- One persisted `Embedding` row for the modelled vector store:
`document_chunk` is the chunk's primary key, `embedding_id` the
backend-assigned id.  (`vector_store` is fixed: the model tracks one
instance.) -/
structure EmbeddingRow where
  document_chunk : Nat
  embedding_id : String
  deriving Repr, DecidableEq

/-- The database state of one `VectorStoreInstance` (and its `Embedding`
rows and document link) as touched by the manager. -/
structure VSDB where
  status : String
  error_message : Option String
  embeddings : List EmbeddingRow
  document_linked : Bool
  deriving Repr, DecidableEq

/-- `Embedding.objects.bulk_create`: one multi-row INSERT; the
`unique_together ('document_chunk', 'vector_store')` constraint rejects
the whole statement with `IntegrityError` when a new row repeats a chunk
that already has a row for this store, or appears twice in the batch. -/
def bulk_create_embeddings (existing new_rows : List EmbeddingRow) :
    Except Exc (List EmbeddingRow) :=
  if (new_rows.map (fun r => r.document_chunk)).Nodup
      ∧ ∀ r ∈ new_rows, r.document_chunk ∉ existing.map (fun r => r.document_chunk) then
    .ok (existing ++ new_rows)
  else
    .error (.integrityError "UNIQUE constraint failed: vectorstore_embedding.document_chunk_id, vectorstore_embedding.vector_store_id")

/-- The `Embedding` rows built from `zip(chunks, added_ids)` where
`added_ids` are the deterministic per-chunk ids
`f"{document.id}_{chunk.chunk_index}"` returned by the backend (one per
`zip(chunks, embeddings)` pair). -/
def newEmbeddingRows (document_id : String) (chunks : List ChunkRow)
    (vectors : List Nat) : List EmbeddingRow :=
  (chunks.zip ((chunks.zip vectors).map
      (fun p => document_id ++ "_" ++ toString p.1.chunk_index))).map
    (fun p => { document_chunk := p.1.id, embedding_id := p.2 })

/-- The `try:` body of `add_document_to_vector_store`, run on a working
copy of `db` inside the transaction; `.error e` means the statement at
that point raised `e`. -/
def addDocumentBody (db : VSDB) (document_id : String)
    (instance_exists document_exists : Bool)
    (provider_outcome : Except Exc Unit) (chunks : List ChunkRow)
    (embed_outcome : Except Exc (List Nat)) (backend_outcome : Except Exc Unit) :
    Except Exc VSDB :=
  if ¬ instance_exists then
    .error (.doesNotExist "VectorStoreInstance matching query does not exist.")
  else if ¬ document_exists then
    .error (.doesNotExist "Document matching query does not exist.")
  else
    let w1 : VSDB := { db with status := "indexing" }
    match provider_outcome with
    | .error e => .error e
    | .ok _ =>
      if chunks = [] then
        .error (.vectorStoreError ("No chunks found for document " ++ document_id))
      else
        match embed_outcome with
        | .error e => .error e
        | .ok vectors =>
          match backend_outcome with
          | .error e => .error e
          | .ok _ =>
            match bulk_create_embeddings w1.embeddings
                (newEmbeddingRows document_id chunks vectors) with
            | .error e => .error e
            | .ok rows =>
              .ok { w1 with embeddings := rows, document_linked := true, status := "ready" }

/-- Result of one `add_document_to_vector_store` call. -/
structure AddDocResult where
  raised : Option Exc
  db : VSDB
  commits : List VSDB
  deriving Repr, DecidableEq

/-- `VectorStoreManager.add_document_to_vector_store` under
`@transaction.atomic`: on normal return the working state commits (one
commit, visible from then on); on an escaping exception the `except`
branch's `status='failed'` write is rolled back together with everything
else, nothing commits, and `VectorStoreError` reaches the caller. -/
def add_document_to_vector_store (db : VSDB) (document_id : String)
    (instance_exists document_exists : Bool)
    (provider_outcome : Except Exc Unit) (chunks : List ChunkRow)
    (embed_outcome : Except Exc (List Nat)) (backend_outcome : Except Exc Unit) :
    AddDocResult :=
  match addDocumentBody db document_id instance_exists document_exists
      provider_outcome chunks embed_outcome backend_outcome with
  | .ok w => { raised := none, db := w, commits := [w] }
  | .error e =>
    { raised := some (.vectorStoreError ("Failed to add document: " ++ e.text)),
      db := db, commits := [] }

/-- `VectorStoreManager.get_retriever` (lines 186-219): raise
`VectorStoreError("Vector store not ready: …")` unless the instance status
is `'ready'`; the trailing `except` wraps every escaping exception as
`VectorStoreError("Failed to get retriever: …")`.  `provider`, embedding
`model` and backend `retriever` steps are oracles. -/
def get_retriever (instance_exists : Bool) (status : String)
    (provider_outcome model_outcome retriever_outcome : Except Exc Unit) :
    Except Exc Unit :=
  let body : Except Exc Unit :=
    if ¬ instance_exists then
      .error (.doesNotExist "VectorStoreInstance matching query does not exist.")
    else if status ≠ "ready" then
      .error (.vectorStoreError ("Vector store not ready: " ++ status))
    else
      match provider_outcome with
      | .error e => .error e
      | .ok _ =>
        match model_outcome with
        | .error e => .error e
        | .ok _ => retriever_outcome
  match body with
  | .ok r => .ok r
  | .error e => .error (.vectorStoreError ("Failed to get retriever: " ++ e.text))

/-! ## `process_retrieval_query` / `generate_direct_response` (llm/tasks.py)
and `ChatService.process_message` (chat/services.py)

`process_retrieval_query` returns the dict
`{"answer": …, "status": "success"}` on success and
`{"answer": <apology>, "status": "error", "error": str(e)}` on any caught
exception; it never sets a `"references"` key, so
`response_dict.get("references", None)` in the chat layer is always
`None`.  The dicts are modelled as structures whose optional fields are
`none` when the key is absent.  The answer generation
(`RetrieverService.get_answer_with_sources`, which returns only
`response["answer"]`) and the direct LLM call are oracles carrying the
exception text on failure. -/

/-- The dict returned by `process_retrieval_query`. -/
structure RetrievalResult where
  answer : String
  status : String
  error : Option String
  references : Option String
  deriving Repr, DecidableEq

/-- `llm.tasks.process_retrieval_query`: get the retriever (first oracle,
the result of `VectorStoreManager.get_retriever`), then generate the
answer (second oracle); any exception is caught and turned into the error
dict. -/
def process_retrieval_query (retriever : Except Exc Unit)
    (answer_outcome : Except String String) : RetrievalResult :=
  match retriever with
  | .error e =>
    { answer := "I'm sorry, I couldn't process your request at this time.",
      status := "error", error := some e.text, references := none }
  | .ok _ =>
    match answer_outcome with
    | .ok ans => { answer := ans, status := "success", error := none, references := none }
    | .error msg =>
      { answer := "I'm sorry, I couldn't process your request at this time.",
        status := "error", error := some msg, references := none }

/-- The dict returned by `generate_direct_response`. -/
structure DirectResult where
  response : String
  status : String
  error : Option String
  deriving Repr, DecidableEq

/-- `llm.tasks.generate_direct_response`: invoke the LLM (oracle); any
exception is caught and turned into the error dict. -/
def generate_direct_response (outcome : Except String String) : DirectResult :=
  match outcome with
  | .ok resp => { response := resp, status := "success", error := none }
  | .error msg =>
    { response := "I'm sorry, I couldn't generate a response at this time.",
      status := "error", error := some msg }

/-- One `ChatMessage` row: type, content, and the stored `references`. -/
structure Msg where
  message_type : String
  content : String
  references : Option String
  deriving Repr, DecidableEq

/-- The dict returned by `ChatService.process_message`, together with the
session's message rows after the call (`messages`). -/
structure ProcessMessageResult where
  status : String
  message : Option String
  content : Option String
  references : Option String
  messages : List Msg
  deriving Repr, DecidableEq

/-- `ChatService.process_message`: look up the session, persist the user
message, then either the RAG path (`process_retrieval_query`) when the
session has a `vector_store_id` or the direct path
(`generate_direct_response`); on a pipeline `status != "success"` persist
an apologetic assistant message carrying the error string.
(`add_user_message` can only return `None` for a user mismatch, impossible
after `get_session` succeeded for the same `(session_id, user)` pair, so
the model proceeds past it.) -/
def process_message (session_found : Bool) (vector_store_id : Option String)
    (history : List Msg) (content : String)
    (retriever : Except Exc Unit) (rag_answer : Except String String)
    (direct_outcome : Except String String) : ProcessMessageResult :=
  if ¬ session_found then
    { status := "error", message := some "Chat session not found",
      content := none, references := none, messages := history }
  else
    let h1 := history ++ [{ message_type := "user", content := content, references := none }]
    match vector_store_id with
    | some _ =>
      let rd := process_retrieval_query retriever rag_answer
      if rd.status = "success" then
        let answer := rd.answer
        let references := rd.references
        { status := "success", message := none, content := some answer,
          references := references,
          messages := h1 ++ [{ message_type := "assistant", content := answer,
                               references := references }] }
      else
        let error_msg := rd.error.getD "Unknown error occurred"
        { status := "error", message := some error_msg, content := none, references := none,
          messages := h1 ++ [{ message_type := "assistant",
                               content := "I'm sorry, I encountered an error: " ++ error_msg,
                               references := none }] }
    | none =>
      let rd := generate_direct_response direct_outcome
      if rd.status = "success" then
        { status := "success", message := none, content := some rd.response,
          references := none,
          messages := h1 ++ [{ message_type := "assistant", content := rd.response,
                               references := none }] }
      else
        let error_msg := rd.error.getD "Unknown error occurred"
        { status := "error", message := some error_msg, content := none, references := none,
          messages := h1 ++ [{ message_type := "assistant",
                               content := "I'm sorry, I encountered an error: " ++ error_msg,
                               references := none }] }

end ChatbotND

namespace ChatbotND

/-- C6 as stated quantifies over every pair of integers; the code only
clamps from above (`min 100 …`), so a negative counter escapes `[0, 100]`:
with `processed_pages = -1, total_pages = 1` the property returns `-100`. -/
theorem progress_percentage_claim_counterexample :
    progress_percentage (-1) 1 = -100 ∧ ¬ (0 ≤ progress_percentage (-1) 1) := by
  constructor
  · decide
  · decide

/-- C6 (amended): `progress_percentage` equals 0 whenever `total_pages = 0`
(for every integer `processed_pages`), and it lies within `[0, 100]` for all
non-negative values of the two counters (the only values the pipeline ever
stores). -/
theorem progress_percentage_bounds (p t : Int) :
    (t = 0 → progress_percentage p t = 0) ∧
    (0 ≤ p → 0 ≤ t → 0 ≤ progress_percentage p t ∧ progress_percentage p t ≤ 100) := by
  constructor
  · intro ht
    simp [progress_percentage, ht]
  · intro hp ht
    by_cases h0 : t = 0
    · simp [progress_percentage, h0]
    · have htpos : 0 ≤ t := ht
      constructor
      · simp only [progress_percentage, if_neg h0]
        apply le_min (by norm_num)
        exact Int.tdiv_nonneg (by linarith) htpos
      · simp only [progress_percentage, if_neg h0]
        exact min_le_left _ _

/-- Witness for `progress_percentage_bounds` at `p = 3, t = 4`
(`3/4 * 100 = 75`) and at `p = 7, t = 0`. -/
theorem progress_percentage_bounds_witness :
    progress_percentage 7 0 = 0 ∧
    (0 ≤ progress_percentage 3 4 ∧ progress_percentage 3 4 ≤ 100) := by
  refine ⟨(progress_percentage_bounds 7 0).1 rfl, ?_⟩
  exact (progress_percentage_bounds 3 4).2 (by decide) (by decide)

/-! ### Helper lemmas about `clean_text`'s building blocks -/

/-- `stripEnds` returns an infix (contiguous slice) of its input. -/
theorem stripEnds_slice (l : List Char) : stripEnds l <:+: l := by
  have hA : l.dropWhile isSpaceChar <:+ l := List.dropWhile_suffix _
  have hB : (l.dropWhile isSpaceChar).reverse.dropWhile isSpaceChar <:+
      (l.dropWhile isSpaceChar).reverse := List.dropWhile_suffix _
  have hP : ((l.dropWhile isSpaceChar).reverse.dropWhile isSpaceChar).reverse <+:
      l.dropWhile isSpaceChar := List.reverse_suffix.mp (by simpa using hB)
  exact hP.isInfix.trans hA.isInfix

/-- `hasLSlash` decides occurrence of the two-character infix `['l', '/']`. -/
theorem hasLSlash_eq_true_iff : (l : List Char) → (hasLSlash l = true ↔ ['l', '/'] <:+: l)
  | [] => by
    constructor
    · intro h; simp [hasLSlash] at h
    · intro h; have := h.sublist.length_le; simp at this
  | [c] => by
    constructor
    · intro h; simp [hasLSlash] at h
    · intro h; have := h.sublist.length_le; simp at this
  | a :: b :: rest => by
    have ih := hasLSlash_eq_true_iff (b :: rest)
    rw [show hasLSlash (a :: b :: rest) = ((a = 'l' && b = '/') || hasLSlash (b :: rest)) from rfl,
      List.infix_cons_iff]
    simp only [Bool.or_eq_true, Bool.and_eq_true, decide_eq_true_eq, ih]
    simp [List.cons_prefix_cons, eq_comm]

/-- Prepending a character other than `'l'` cannot create an `l/`. -/
theorem hasLSlash_cons_of_ne {a : Char} (h : a ≠ 'l') :
    (X : List Char) → hasLSlash (a :: X) = hasLSlash X
  | [] => by simp [hasLSlash]
  | x :: xs => by simp [hasLSlash, h]

/-- `replaceLSlash` keeps the head of a nonempty list, or turns it into
`'i'`. -/
theorem replaceLSlash_cons (b : Char) (X : List Char) :
    ∃ c Y, replaceLSlash (b :: X) = c :: Y ∧ (c = b ∨ c = 'i') := by
  cases X with
  | nil => exact ⟨b, [], rfl, Or.inl rfl⟩
  | cons x xs =>
    by_cases h : b = 'l' ∧ x = '/'
    · exact ⟨'i', '/' :: replaceLSlash xs, by simp [replaceLSlash, h], Or.inr rfl⟩
    · exact ⟨b, replaceLSlash (x :: xs), by simp [replaceLSlash, h], Or.inl rfl⟩

/-- After `text.replace('l/', 'i/')` no occurrence of `l/` remains. -/
theorem hasLSlash_replaceLSlash : (l : List Char) → hasLSlash (replaceLSlash l) = false
  | [] => rfl
  | [_] => rfl
  | a :: b :: rest => by
    by_cases h : a = 'l' ∧ b = '/'
    · rw [show replaceLSlash (a :: b :: rest) = 'i' :: '/' :: replaceLSlash rest by
        simp [replaceLSlash, h]]
      rw [hasLSlash_cons_of_ne (by decide), hasLSlash_cons_of_ne (by decide)]
      exact hasLSlash_replaceLSlash rest
    · rw [show replaceLSlash (a :: b :: rest) = a :: replaceLSlash (b :: rest) by
        simp [replaceLSlash, h]]
      by_cases ha : a = 'l'
      · have hb : b ≠ '/' := fun hb => h ⟨ha, hb⟩
        obtain ⟨c, Y, hcY, hc⟩ := replaceLSlash_cons b rest
        have hc' : c ≠ '/' := by
          rcases hc with hc | hc
          · exact hc ▸ hb
          · simp [hc]
        rw [hcY, show hasLSlash (a :: c :: Y) = ((a = 'l' && c = '/') || hasLSlash (c :: Y))
          from rfl]
        have hcf : (decide (c = '/')) = false := by simp [hc']
        rw [hcf, Bool.and_false, Bool.false_or, ← hcY]
        exact hasLSlash_replaceLSlash (b :: rest)
      · rw [hasLSlash_cons_of_ne ha]
        exact hasLSlash_replaceLSlash (b :: rest)

/-- `text.replace('|', 'I')` neither creates nor destroys `l/` occurrences. -/
theorem hasLSlash_replacePipe : (l : List Char) → hasLSlash (replacePipe l) = hasLSlash l
  | [] => rfl
  | [_] => rfl
  | a :: b :: rest => by
    have key : ∀ c : Char, (decide ((if c = '|' then 'I' else c) = 'l')) = decide (c = 'l') ∧
        (decide ((if c = '|' then 'I' else c) = '/')) = decide (c = '/') := by
      intro c
      by_cases h : c = '|' <;> simp [h]
    rw [show replacePipe (a :: b :: rest)
        = (if a = '|' then 'I' else a) :: replacePipe (b :: rest) from rfl]
    have hb : ∃ y ys, replacePipe (b :: rest) = y :: ys ∧ y = (if b = '|' then 'I' else b) :=
      ⟨_, _, rfl, rfl⟩
    obtain ⟨y, ys, hys, hy⟩ := hb
    rw [hys,
      show hasLSlash ((if a = '|' then 'I' else a) :: y :: ys)
        = ((decide ((if a = '|' then 'I' else a) = 'l') && decide (y = '/')) || hasLSlash (y :: ys))
        from rfl,
      show hasLSlash (a :: b :: rest) = ((decide (a = 'l') && decide (b = '/')) || hasLSlash (b :: rest))
        from rfl]
    rw [← hys, hasLSlash_replacePipe (b :: rest), (key a).1, hy, (key b).2]

/-- The whole cleaned text never contains `'|'` and never contains `l/`. -/
theorem clean_textL_no_pipe_no_lslash (l : List Char) :
    '|' ∉ clean_textL l ∧ hasLSlash (clean_textL l) = false := by
  unfold clean_textL
  set X := stripFooters (collapseRuns isSpaceChar (collapseRuns isNewlineChar l)) with hX
  constructor
  · intro hmem
    have h1 : '|' ∈ replacePipe (replaceLSlash X) :=
      List.Sublist.mem hmem (stripEnds_slice _).sublist
    obtain ⟨c, _, hc⟩ := List.mem_map.mp h1
    by_cases h : c = '|' <;> simp [h] at hc
  · have h2 : hasLSlash (replacePipe (replaceLSlash X)) = false := by
      rw [hasLSlash_replacePipe, hasLSlash_replaceLSlash]
    cases hfin : hasLSlash (stripEnds (replacePipe (replaceLSlash X))) with
    | false => rfl
    | true =>
      exfalso
      have hinf : ['l', '/'] <:+: replacePipe (replaceLSlash X) :=
        ((hasLSlash_eq_true_iff _).mp hfin).trans (stripEnds_slice _)
      rw [(hasLSlash_eq_true_iff _).mpr hinf] at h2
      simp at h2

/-- C9: beyond whitespace collapsing, footer stripping and trimming,
`clean_text` replaces every `'|'` with `'I'` and every occurrence of the
substring `l/` with `i/`, so no `'|'` and no `l/` survives in any cleaned
text, and stored chunk content can differ from the source text in these
characters (e.g. `"a|b" ↦ "aIb"` and `"al/b" ↦ "ai/b"`). -/
theorem clean_text_ocr_replacements :
    (∀ s : String, '|' ∉ (clean_text s).data ∧ hasLSlash (clean_text s).data = false) ∧
    clean_text "a|b" = "aIb" ∧ clean_text "al/b" = "ai/b" := by
  refine ⟨fun s => clean_textL_no_pipe_no_lslash s.data, by decide, by decide⟩

/-- C7: the chunker selects `(chunk_size, chunk_overlap) = (500, 50)` when
the mean extracted page length is strictly greater than 1000 and
`(1500, 200)` otherwise, and `process_text` splits with exactly those
parameters. -/
theorem determine_chunk_parameters_spec (documents : List ExtractedPage) :
    (calculate_avg_text_length documents > 1000 →
      determine_chunk_parameters (calculate_avg_text_length documents) = (500, 50)) ∧
    (calculate_avg_text_length documents ≤ 1000 →
      determine_chunk_parameters (calculate_avg_text_length documents) = (1500, 200)) ∧
    process_text documents = split_documents documents
      (determine_chunk_parameters (calculate_avg_text_length documents)).1
      (determine_chunk_parameters (calculate_avg_text_length documents)).2 := by
  refine ⟨?_, ?_, rfl⟩
  · intro h
    unfold determine_chunk_parameters
    rw [if_pos h]
  · intro h
    unfold determine_chunk_parameters
    rw [if_neg (not_lt.mpr h)]

/-- Witness for `determine_chunk_parameters_spec`: a document whose single
extracted page has 1800 characters (mean 1800 > 1000) gets `(500, 50)`; one
whose single page has 400 characters (mean 400 ≤ 1000) gets `(1500, 200)`. -/
theorem determine_chunk_parameters_spec_witness :
    determine_chunk_parameters (calculate_avg_text_length
      [⟨String.mk (List.replicate 1800 'a'), "u", "doc.pdf", 0⟩]) = (500, 50) ∧
    determine_chunk_parameters (calculate_avg_text_length
      [⟨String.mk (List.replicate 400 'a'), "u", "doc.pdf", 0⟩]) = (1500, 200) := by
  have hl18 : (String.mk (List.replicate 1800 'a')).length = 1800 := by
    rw [String.length]
    exact List.length_replicate 1800 'a'
  have hl4 : (String.mk (List.replicate 400 'a')).length = 400 := by
    rw [String.length]
    exact List.length_replicate 400 'a'
  have h18 : calculate_avg_text_length
      [⟨String.mk (List.replicate 1800 'a'), "u", "doc.pdf", 0⟩] = 1800 := by
    unfold calculate_avg_text_length
    rw [if_neg (by simp)]
    simp only [List.map_cons, List.map_nil, List.sum_cons, List.sum_nil, List.length_cons,
      List.length_nil, hl18]
    norm_num
  have h4 : calculate_avg_text_length
      [⟨String.mk (List.replicate 400 'a'), "u", "doc.pdf", 0⟩] = 400 := by
    unfold calculate_avg_text_length
    rw [if_neg (by simp)]
    simp only [List.map_cons, List.map_nil, List.sum_cons, List.sum_nil, List.length_cons,
      List.length_nil, hl4]
    norm_num
  constructor
  · exact (determine_chunk_parameters_spec _).1 (by rw [h18]; norm_num)
  · exact (determine_chunk_parameters_spec _).2.1 (by rw [h4]; norm_num)

/-- When the adaptive parameters of a document are known, `process_text`
is `split_documents` at those parameters. -/
theorem process_text_params (documents : List ExtractedPage) (cs co : Nat)
    (h : determine_chunk_parameters (calculate_avg_text_length documents) = (cs, co)) :
    process_text documents = split_documents documents cs co := by
  simp only [process_text, h]

/-- C1 (code bug): for a document with two extracted pages the persisted
`chunk_index` values are `[0, 0]` — the inner `enumerate` of
`split_documents` restarts at 0 for every page — and `[0, 0]` is not a
permutation of `0..n-1`, so the indexes of a multi-page document are
neither gap-free nor duplicate-free over the whole document. -/
theorem chunk_index_restarts_per_page :
    chunkIndexes [⟨"hello", "u", "doc.pdf", 0⟩, ⟨"world", "u", "doc.pdf", 1⟩] = [0, 0] ∧
    ¬ (chunkIndexes [⟨"hello", "u", "doc.pdf", 0⟩, ⟨"world", "u", "doc.pdf", 1⟩]).Perm
      (List.range
        (chunkIndexes [⟨"hello", "u", "doc.pdf", 0⟩, ⟨"world", "u", "doc.pdf", 1⟩]).length) := by
  have h5 : ("hello" : String).length = 5 := by decide
  have h5' : ("world" : String).length = 5 := by decide
  have havg : calculate_avg_text_length
      [⟨"hello", "u", "doc.pdf", 0⟩, ⟨"world", "u", "doc.pdf", 1⟩] ≤ 1000 := by
    unfold calculate_avg_text_length
    rw [if_neg (by simp)]
    simp only [List.map_cons, List.map_nil, List.sum_cons, List.sum_nil, List.length_cons,
      List.length_nil, h5, h5']
    norm_num
  have hdet : determine_chunk_parameters (calculate_avg_text_length
      [⟨"hello", "u", "doc.pdf", 0⟩, ⟨"world", "u", "doc.pdf", 1⟩]) = (1500, 200) := by
    unfold determine_chunk_parameters
    rw [if_neg (not_lt.mpr havg)]
  have hpt := process_text_params _ _ _ hdet
  unfold chunkIndexes process_text_chunks
  rw [hpt]
  constructor
  · decide
  · decide

/-- C4 counterexample: when the parse yields zero pages the call raises,
and the temporary file that was created for it is not removed. -/
theorem extract_from_bytes_leaks_temp_file :
    (extract_from_bytes "doc.pdf" "tmp0" (.docs []) "u" true).tempCreated = true ∧
    (extract_from_bytes "doc.pdf" "tmp0" (.docs []) "u" true).tempDeleted = false ∧
    exceptIsOk (extract_from_bytes "doc.pdf" "tmp0" (.docs []) "u" true).result = false := by
  refine ⟨rfl, rfl, rfl⟩

/-- C4 (amended): the temporary file is deleted exactly when extraction
succeeds and the unlink itself succeeds; on every failing exit path
(parse raised, zero pages) the created temporary file survives the call. -/
theorem extract_from_bytes_temp_file (file_name temp_base : String)
    (outcome : LoadOutcome) (doc_uuid : String) (unlink_ok : Bool) :
    (extract_from_bytes file_name temp_base outcome doc_uuid unlink_ok).tempDeleted
      = (exceptIsOk (extract_from_bytes file_name temp_base outcome doc_uuid unlink_ok).result
          && unlink_ok) ∧
    (extract_from_bytes file_name temp_base outcome doc_uuid unlink_ok).tempCreated
      = endsWithPdf file_name := by
  unfold extract_from_bytes
  by_cases h : endsWithPdf file_name = true
  · rw [if_neg (by simp [h])]
    cases hef : extract_from_file (temp_base ++ ".pdf") outcome doc_uuid with
    | ok pages => simp [exceptIsOk, h]
    | error e => simp [exceptIsOk, h]
  · rw [if_pos (by simp [h])]
    simp only [Bool.not_eq_true] at h
    simp [exceptIsOk, h]

/-! ### Helper lemmas about the vector store manager -/

/-- Characterization of a successful `bulk_create`. -/
theorem bulk_create_embeddings_ok {existing new_rows rows : List EmbeddingRow}
    (h : bulk_create_embeddings existing new_rows = .ok rows) :
    rows = existing ++ new_rows ∧
    (new_rows.map (fun r => r.document_chunk)).Nodup ∧
    ∀ r ∈ new_rows, r.document_chunk ∉ existing.map (fun r => r.document_chunk) := by
  unfold bulk_create_embeddings at h
  split at h
  · next hcond =>
    refine ⟨?_, hcond.1, hcond.2⟩
    exact ((Except.ok.injEq _ _).mp h).symm
  · exact Except.noConfusion h

/-- Characterization of a successful `addDocumentBody` run. -/
theorem addDocumentBody_ok {db : VSDB} {document_id : String} {iE dE : Bool}
    {pOut : Except Exc Unit} {chunks : List ChunkRow} {eOut : Except Exc (List Nat)}
    {bOut : Except Exc Unit} {w : VSDB}
    (h : addDocumentBody db document_id iE dE pOut chunks eOut bOut = .ok w) :
    iE = true ∧ dE = true ∧ chunks ≠ [] ∧
    ∃ vectors, eOut = .ok vectors ∧ pOut = .ok () ∧ bOut = .ok () ∧
      bulk_create_embeddings db.embeddings (newEmbeddingRows document_id chunks vectors)
        = .ok w.embeddings ∧
      w.embeddings = db.embeddings ++ newEmbeddingRows document_id chunks vectors ∧
      w.status = "ready" := by
  cases iE with
  | false => simp [addDocumentBody] at h
  | true =>
  cases dE with
  | false => simp [addDocumentBody] at h
  | true =>
  rcases hpOut : pOut with e | ⟨⟩
  · rw [hpOut] at h
    simp [addDocumentBody] at h
  · by_cases hch : chunks = []
    · rw [hpOut] at h
      simp [addDocumentBody, hch] at h
    · rcases heOut : eOut with e | vectors
      · rw [hpOut, heOut] at h
        simp [addDocumentBody, hch] at h
      · rcases hbOut : bOut with e | ⟨⟩
        · rw [hpOut, heOut, hbOut] at h
          simp [addDocumentBody, hch] at h
        · rw [hpOut, heOut, hbOut] at h
          simp only [addDocumentBody] at h
          rw [if_neg (by simp), if_neg (by simp), if_neg hch] at h
          split at h
          · simp at h
          · rename_i rows hbulk
            have hw : w = { status := "ready", error_message := db.error_message,
                            embeddings := rows, document_linked := true } :=
              ((Except.ok.injEq _ _).mp h).symm
            have hrows := bulk_create_embeddings_ok hbulk
            refine ⟨rfl, rfl, hch, vectors, rfl, rfl, rfl, ?_, ?_, ?_⟩
            · rw [hw]
              exact hbulk
            · rw [hw]
              exact hrows.1
            · rw [hw]

/-- A successful run preserves the per-(chunk, store) uniqueness of the
`Embedding` rows, and a failed run leaves them untouched. -/
theorem add_document_preserves_nodup (db : VSDB) (document_id : String)
    (iE dE : Bool) (pOut : Except Exc Unit) (chunks : List ChunkRow)
    (eOut : Except Exc (List Nat)) (bOut : Except Exc Unit)
    (h0 : (db.embeddings.map (fun r => r.document_chunk)).Nodup) :
    (((add_document_to_vector_store db document_id iE dE pOut chunks eOut
        bOut).db.embeddings.map (fun r => r.document_chunk)).Nodup) := by
  unfold add_document_to_vector_store
  rcases hbody : addDocumentBody db document_id iE dE pOut chunks eOut bOut with e | w
  · exact h0
  · obtain ⟨-, -, -, vectors, -, -, -, hbulk, hemb, -⟩ := addDocumentBody_ok hbody
    obtain ⟨-, hnew, hdisj⟩ := bulk_create_embeddings_ok hbulk
    simp only [hemb, List.map_append]
    refine h0.append hnew (List.disjoint_right.mpr ?_)
    intro a ha
    obtain ⟨r, hr, rfl⟩ := List.mem_map.mp ha
    exact hdisj r hr

/-- C2 (code bug): a failing run (here: a document with no chunks) raises
`VectorStoreError`, but because the whole method runs in one
`@transaction.atomic` block the `except`-branch `status='failed'` write is
rolled back — the committed status is still `'created'` and no error
message is persisted; and no state with status `'indexing'` is ever
committed for other readers, in a failing or in a successful run (the only
commit of a successful run already has status `'ready'`). -/
theorem add_document_failure_rolls_back :
    (let r := add_document_to_vector_store
        { status := "created", error_message := none, embeddings := [], document_linked := false }
        "d1" true true (Except.ok ()) [] (Except.ok []) (Except.ok ())
     r.raised = some (.vectorStoreError "Failed to add document: No chunks found for document d1") ∧
       r.db.status = "created" ∧ r.db.error_message = none ∧ r.commits = []) ∧
    (let r := add_document_to_vector_store
        { status := "created", error_message := none, embeddings := [], document_linked := false }
        "d1" true true (Except.ok ())
        [{ id := 1, content := "hello", chunk_index := 0, page_number := some 0 }]
        (Except.ok [7]) (Except.ok ())
     r.raised = none ∧ r.commits.map (fun s => s.status) = ["ready"]) := by
  constructor
  · exact ⟨by decide, by decide, by decide, by decide⟩
  · exact ⟨by decide, by decide⟩

/-- C3 counterexample: after one successful indexing run, re-running
`add_document_to_vector_store` with identical inputs does not succeed — the
`Embedding` bulk insert violates the `unique_together` constraint, the
transaction rolls back, and `VectorStoreError` is raised (the rows are
unchanged, so uniqueness itself still holds). -/
theorem add_document_rerun_counterexample :
    (let r1 := add_document_to_vector_store
        { status := "created", error_message := none, embeddings := [], document_linked := false }
        "d1" true true (Except.ok ())
        [{ id := 1, content := "hello", chunk_index := 0, page_number := some 0 }]
        (Except.ok [7]) (Except.ok ())
     let r2 := add_document_to_vector_store r1.db
        "d1" true true (Except.ok ())
        [{ id := 1, content := "hello", chunk_index := 0, page_number := some 0 }]
        (Except.ok [7]) (Except.ok ())
     r1.raised = none ∧
       r2.raised = some (.vectorStoreError ("Failed to add document: " ++
         "UNIQUE constraint failed: vectorstore_embedding.document_chunk_id, vectorstore_embedding.vector_store_id")) ∧
       r2.db.embeddings = r1.db.embeddings ∧
       (r1.db.embeddings.map (fun r => r.document_chunk)).Nodup) := by
  exact ⟨by decide, by decide, by decide, by decide⟩

/-- C3 (amended): per-(chunk, store) uniqueness of `Embedding` rows always
holds — but not because re-running is an idempotent success: a second run
with identical inputs, after a first run that persisted at least one row,
raises `VectorStoreError` (wrapping the `IntegrityError` of the unique
constraint) and, with the transaction rolled back, leaves the rows of the
first run unchanged. -/
theorem add_document_rerun_not_idempotent (db : VSDB) (document_id : String)
    (iE dE : Bool) (pOut : Except Exc Unit) (chunks : List ChunkRow)
    (eOut : Except Exc (List Nat)) (bOut : Except Exc Unit)
    (h0 : (db.embeddings.map (fun r => r.document_chunk)).Nodup)
    (h1 : (add_document_to_vector_store db document_id iE dE pOut chunks eOut bOut).raised
      = none)
    (h2 : (add_document_to_vector_store db document_id iE dE pOut chunks eOut
      bOut).db.embeddings ≠ db.embeddings) :
    (∃ m, (add_document_to_vector_store
        (add_document_to_vector_store db document_id iE dE pOut chunks eOut bOut).db
        document_id iE dE pOut chunks eOut bOut).raised = some (.vectorStoreError m)) ∧
    (add_document_to_vector_store
        (add_document_to_vector_store db document_id iE dE pOut chunks eOut bOut).db
        document_id iE dE pOut chunks eOut bOut).db
      = (add_document_to_vector_store db document_id iE dE pOut chunks eOut bOut).db ∧
    ((add_document_to_vector_store db document_id iE dE pOut chunks eOut
        bOut).db.embeddings.map (fun r => r.document_chunk)).Nodup := by
  rcases hbody : addDocumentBody db document_id iE dE pOut chunks eOut bOut with e | w
  · exfalso
    unfold add_document_to_vector_store at h1
    rw [hbody] at h1
    simp at h1
  · have hr1 : add_document_to_vector_store db document_id iE dE pOut chunks eOut bOut
        = { raised := none, db := w, commits := [w] } := by
      unfold add_document_to_vector_store
      rw [hbody]
    obtain ⟨hiE, hdE, hch, vectors, heOut, hpOut, hbOut, hbulk, hemb, hst⟩ :=
      addDocumentBody_ok hbody
    rw [hr1] at h2
    have hw2 : w.embeddings ≠ db.embeddings := h2
    have hnewne : newEmbeddingRows document_id chunks vectors ≠ [] := by
      intro hnil
      apply hw2
      rw [hemb, hnil, List.append_nil]
    have hbulk2 : bulk_create_embeddings w.embeddings
        (newEmbeddingRows document_id chunks vectors)
        = .error (.integrityError "UNIQUE constraint failed: vectorstore_embedding.document_chunk_id, vectorstore_embedding.vector_store_id") := by
      unfold bulk_create_embeddings
      rw [if_neg]
      intro hcond
      obtain ⟨r0, hr0⟩ := List.exists_mem_of_ne_nil _ hnewne
      refine hcond.2 r0 hr0 ?_
      rw [hemb, List.map_append]
      exact List.mem_append_right _ (List.mem_map_of_mem _ hr0)
    subst hiE
    subst hdE
    have hbody2 : addDocumentBody w document_id true true pOut chunks eOut bOut
        = .error (.integrityError "UNIQUE constraint failed: vectorstore_embedding.document_chunk_id, vectorstore_embedding.vector_store_id") := by
      rw [hpOut, heOut, hbOut]
      simp [addDocumentBody, hch, hbulk2]
    have hr2 : add_document_to_vector_store w document_id true true pOut chunks eOut bOut
        = { raised := some (.vectorStoreError ("Failed to add document: " ++
              "UNIQUE constraint failed: vectorstore_embedding.document_chunk_id, vectorstore_embedding.vector_store_id")),
            db := w, commits := [] } := by
      unfold add_document_to_vector_store
      rw [hbody2]
      rfl
    have hnd := add_document_preserves_nodup db document_id true true pOut chunks eOut bOut h0
    rw [hr1] at hnd
    refine ⟨⟨"Failed to add document: " ++
      "UNIQUE constraint failed: vectorstore_embedding.document_chunk_id, vectorstore_embedding.vector_store_id",
      ?_⟩, ?_, ?_⟩
    · rw [hr1]
      rw [show ({ raised := none, db := w, commits := [w] } : AddDocResult).db = w from rfl, hr2]
    · rw [hr1]
      rw [show ({ raised := none, db := w, commits := [w] } : AddDocResult).db = w from rfl, hr2]
    · rw [hr1]
      exact hnd

/-- Witness for `add_document_rerun_not_idempotent` at the inputs of
`add_document_rerun_counterexample`. -/
theorem add_document_rerun_not_idempotent_witness :
    (∃ m, (add_document_to_vector_store
        (add_document_to_vector_store
          { status := "created", error_message := none, embeddings := [], document_linked := false }
          "d1" true true (Except.ok ())
          [{ id := 1, content := "hello", chunk_index := 0, page_number := some 0 }]
          (Except.ok [7]) (Except.ok ())).db
        "d1" true true (Except.ok ())
        [{ id := 1, content := "hello", chunk_index := 0, page_number := some 0 }]
        (Except.ok [7]) (Except.ok ())).raised = some (.vectorStoreError m)) ∧
    (add_document_to_vector_store
        (add_document_to_vector_store
          { status := "created", error_message := none, embeddings := [], document_linked := false }
          "d1" true true (Except.ok ())
          [{ id := 1, content := "hello", chunk_index := 0, page_number := some 0 }]
          (Except.ok [7]) (Except.ok ())).db
        "d1" true true (Except.ok ())
        [{ id := 1, content := "hello", chunk_index := 0, page_number := some 0 }]
        (Except.ok [7]) (Except.ok ())).db
      = (add_document_to_vector_store
          { status := "created", error_message := none, embeddings := [], document_linked := false }
          "d1" true true (Except.ok ())
          [{ id := 1, content := "hello", chunk_index := 0, page_number := some 0 }]
          (Except.ok [7]) (Except.ok ())).db ∧
    ((add_document_to_vector_store
        { status := "created", error_message := none, embeddings := [], document_linked := false }
        "d1" true true (Except.ok ())
        [{ id := 1, content := "hello", chunk_index := 0, page_number := some 0 }]
        (Except.ok [7]) (Except.ok ())).db.embeddings.map
      (fun r => r.document_chunk)).Nodup :=
  add_document_rerun_not_idempotent
    { status := "created", error_message := none, embeddings := [], document_linked := false }
    "d1" true true (Except.ok ())
    [{ id := 1, content := "hello", chunk_index := 0, page_number := some 0 }]
    (Except.ok [7]) (Except.ok ()) (by decide) (by decide) (by decide)

/-- C10: for every instance whose status is not `'ready'` — `'indexing'`,
`'created'`, `'failed'` included — `get_retriever` raises
`VectorStoreError`, whatever the provider, embedding-model and backend
oracles would have done, and a retrieval-augmented query against such a
store therefore takes the error path of `process_retrieval_query`. -/
theorem get_retriever_requires_ready (status : String)
    (pOut mOut rOut : Except Exc Unit) (h : status ≠ "ready") :
    get_retriever true status pOut mOut rOut
      = .error (.vectorStoreError ("Failed to get retriever: Vector store not ready: " ++ status)) ∧
    ∀ aOut : Except String String,
      (process_retrieval_query (get_retriever true status pOut mOut rOut) aOut).status
        = "error" := by
  have hmain : get_retriever true status pOut mOut rOut
      = .error (.vectorStoreError ("Failed to get retriever: Vector store not ready: "
          ++ status)) := by
    have hfold : ("Failed to get retriever: " ++ ("Vector store not ready: " ++ status))
        = "Failed to get retriever: Vector store not ready: " ++ status := by
      rw [← String.append_assoc]
      rw [show "Failed to get retriever: " ++ "Vector store not ready: "
        = "Failed to get retriever: Vector store not ready: " from by decide]
    rw [← hfold]
    simp [get_retriever, h, Exc.text]
  refine ⟨hmain, fun aOut => ?_⟩
  rw [hmain]
  rfl

/-- Witness for `get_retriever_requires_ready` at status `'indexing'`. -/
theorem get_retriever_requires_ready_witness :
    get_retriever true "indexing" (Except.ok ()) (Except.ok ()) (Except.ok ())
      = .error (.vectorStoreError
          ("Failed to get retriever: Vector store not ready: " ++ "indexing")) ∧
    (process_retrieval_query
        (get_retriever true "indexing" (Except.ok ()) (Except.ok ()) (Except.ok ()))
        (Except.ok "hi")).status = "error" := by
  have h := get_retriever_requires_ready "indexing" (Except.ok ()) (Except.ok ())
    (Except.ok ()) (by decide)
  exact ⟨h.1, h.2 (Except.ok "hi")⟩

/-- C5 counterexample: the scenario of the claim — a session bound to a
vector store, a successful retrieval-augmented answer derived from an
indexed chunk — yields `references = none` on the result and on the stored
assistant message, because `process_retrieval_query` never returns a
`references` key; the claim's "non-null references" is false. -/
theorem process_message_references_counterexample :
    (process_message true (some "vs1") [] "what is the invoice total" (Except.ok ())
        (Except.ok "The invoice total is 42.") (Except.ok "unused")).status = "success" ∧
    (process_message true (some "vs1") [] "what is the invoice total" (Except.ok ())
        (Except.ok "The invoice total is 42.") (Except.ok "unused")).references = none ∧
    (process_message true (some "vs1") [] "what is the invoice total" (Except.ok ())
        (Except.ok "The invoice total is 42.") (Except.ok "unused")).messages.getLast?
      = some { message_type := "assistant", content := "The invoice total is 42.",
               references := none } := by
  exact ⟨by decide, by decide, by decide⟩

/-- C5 (amended): a successful retrieval-augmented answer is returned with
status `success` and stored as an assistant message — but its references
are always `None`, both in the returned dict and on the persisted message,
for every history, question, vector store and answer. -/
theorem process_message_rag_success (history : List Msg) (content vs ans : String)
    (dOut : Except String String) :
    process_message true (some vs) history content (Except.ok ()) (Except.ok ans) dOut
      = { status := "success", message := none, content := some ans, references := none,
          messages := history ++
            [{ message_type := "user", content := content, references := none },
             { message_type := "assistant", content := ans, references := none }] } := by
  simp [process_message, process_retrieval_query]

/-- C8: every failure inside the retrieval/generation pipeline — a failing
retriever lookup, a failing answer generation, or a failing direct LLM call
— is returned as a structured `status = "error"` dict with the exception
text under `error` (never an exception), and the chat layer turns it into a
stored apologetic assistant message and an error status, for every session
history and message content. -/
theorem pipeline_failures_are_structured (history : List Msg) (content vs msg : String)
    (e : Exc) (aOut dOut : Except String String) :
    ((process_retrieval_query (Except.error e) aOut).status = "error" ∧
      (process_retrieval_query (Except.error e) aOut).error = some e.text) ∧
    ((process_retrieval_query (Except.ok ()) (Except.error msg)).status = "error" ∧
      (process_retrieval_query (Except.ok ()) (Except.error msg)).error = some msg) ∧
    ((generate_direct_response (Except.error msg)).status = "error" ∧
      (generate_direct_response (Except.error msg)).error = some msg) ∧
    process_message true (some vs) history content (Except.error e) aOut dOut
      = { status := "error", message := some e.text, content := none, references := none,
          messages := history ++
            [{ message_type := "user", content := content, references := none },
             { message_type := "assistant",
               content := "I'm sorry, I encountered an error: " ++ e.text,
               references := none }] } ∧
    process_message true (some vs) history content (Except.ok ()) (Except.error msg) dOut
      = { status := "error", message := some msg, content := none, references := none,
          messages := history ++
            [{ message_type := "user", content := content, references := none },
             { message_type := "assistant",
               content := "I'm sorry, I encountered an error: " ++ msg,
               references := none }] } ∧
    process_message true none history content (Except.ok ()) aOut (Except.error msg)
      = { status := "error", message := some msg, content := none, references := none,
          messages := history ++
            [{ message_type := "user", content := content, references := none },
             { message_type := "assistant",
               content := "I'm sorry, I encountered an error: " ++ msg,
               references := none }] } := by
  refine ⟨⟨rfl, rfl⟩, ⟨rfl, rfl⟩, ⟨rfl, rfl⟩, ?_, ?_, ?_⟩
  · simp [process_message, process_retrieval_query]
  · simp [process_message, process_retrieval_query]
  · simp [process_message, generate_direct_response]

end ChatbotND
